import Mathlib

/-!
# HistoryCalendar: view state, day resolution and chart view models

A shallow embedding of `frontend/src/Components/Dashboard/HistoryCalendar.js`.

Modelling conventions.

* A JavaScript number is modelled by its exact rational value (`JSNumber.fin q`), an infinity
  (`JSNumber.inf`) or `NaN` (`JSNumber.nan`); the two zeros are not told apart.  JSON carries
  neither `NaN` nor an infinity, they arise from arithmetic only.
* The arithmetic of the component, `hills_share * 100` and `100 - ...`, is binary64 arithmetic:
  the exact result is rounded to the nearest binary64 number, ties to even (`toBinary64`), and
  overflows to an infinity.
* `parseFloat` of a decimal string is taken to be exact, so `parseFloat(x.toFixed(2))` is the
  nearest hundredth of `x` itself rather than the binary floating-point number nearest to that
  hundredth.
* A field that the component reads as a number is a `JSValue`: `undefined`, `null`, or a number.
* Library functions of the host (date parsing and formatting, `Number::toString` for very large
  magnitudes) are fields of `Host`.
* `useState` cells are the fields of `ViewState`; the effect bodies and promise callbacks are the
  events of `step`.
* The JSX returned by the component is the data type `View`; a thrown exception is `Except.error`.
-/

set_option autoImplicit false

namespace HistoryCalendar

/-! ## Values -/

/-- A JavaScript number: `NaN`, an infinity with its sign, or a finite value, held exactly. -/
inductive JSNumber where
  | nan
  | inf (negative : Bool)
  | fin (q : ℚ)
  deriving DecidableEq, Repr

/-- What the component finds in a place where it expects a number. -/
inductive JSValue where
  | undefined
  | null
  | number (x : JSNumber)
  deriving DecidableEq, Repr

/-- The integer `n` that `toFixed(2)` picks for a non-negative `x`: the one for which `n / 100 - x`
is as close to zero as possible, the larger one when there are two. -/
def hundredths (x : ℚ) : ℤ := ⌊x * 100 + 1 / 2⌋

/-- The value of `parseFloat(x.toFixed(2))` for a finite `x`.  `toFixed` strips the sign of a
negative number first and puts it back in front of the digits.  For `|x| ≥ 10^21` the library
prints `x` itself; every floating-point number of that size is an integer, for which the value
below is `x` as well. -/
def round2 (x : ℚ) : ℚ :=
  if x < 0 then -((hundredths (-x) : ℚ) / 100) else (hundredths x : ℚ) / 100

/-- The number `parseFloat(x.toFixed(2))`; `NaN.toFixed(2)` is `"NaN"`, which parses to `NaN`,
and an infinity prints as `"Infinity"` or `"-Infinity"`, which parses to itself. -/
def JSNumber.round2 : JSNumber → JSNumber
  | .nan => .nan
  | .inf negative => .inf negative
  | .fin q => .fin (HistoryCalendar.round2 q)

/-- The expression `(v !== null && v !== undefined) ? parseFloat(v.toFixed(2)) : v`. -/
def roundOrPass : JSValue → JSValue
  | .undefined => .undefined
  | .null => .null
  | .number x => .number x.round2

/-- The abstract operation `ToNumber` on the values of `JSValue`. -/
def toNumber : JSValue → JSNumber
  | .undefined => .nan
  | .null => .fin 0
  | .number x => x

/-- The integer nearest to `y`, the even one when `y` lies halfway between two. -/
def roundHalfEven (y : ℚ) : ℤ :=
  if y - ⌊y⌋ < 1 / 2 then ⌊y⌋
  else if 1 / 2 < y - ⌊y⌋ then ⌊y⌋ + 1
  else if ⌊y⌋ % 2 = 0 then ⌊y⌋ else ⌊y⌋ + 1

/-- The exponent of the spacing of the binary64 numbers around `x`: 52 below the exponent of `x`
(53 significant bits), and never below `-1074`, the spacing of the subnormal numbers. -/
def ulpExponent (x : ℚ) : ℤ := max (Int.log 2 |x| - 52) (-1074)

/-- The binary64 number that an arithmetic operation with the exact result `x` delivers: `x`
rounded to the nearest multiple of the spacing, ties to even; a rounded magnitude of `2^1024` or
more overflows to the infinity of the sign of `x`. -/
def toBinary64 (x : ℚ) : JSNumber :=
  if (2 : ℚ) ^ 1024 ≤ |(roundHalfEven (x / 2 ^ ulpExponent x) : ℚ) * 2 ^ ulpExponent x| then
    .inf (decide (x < 0))
  else .fin ((roundHalfEven (x / 2 ^ ulpExponent x) : ℚ) * 2 ^ ulpExponent x)

/-- JavaScript `a * b` on numbers: the exact product rounded to binary64; an infinity times zero
is `NaN`, any other product with an infinity is the infinity of the product of the signs. -/
def JSNumber.mul : JSNumber → JSNumber → JSNumber
  | .fin a, .fin b => toBinary64 (a * b)
  | .inf s, .inf t => .inf (xor s t)
  | .inf s, .fin b => if b = 0 then .nan else .inf (xor s (decide (b < 0)))
  | .fin a, .inf t => if a = 0 then .nan else .inf (xor (decide (a < 0)) t)
  | _, _ => .nan

/-- JavaScript `a - b` on numbers: the exact difference rounded to binary64; the difference of
two infinities of the same sign is `NaN`. -/
def JSNumber.sub : JSNumber → JSNumber → JSNumber
  | .fin a, .fin b => toBinary64 (a - b)
  | .inf s, .inf t => if s = t then .nan else .inf s
  | .inf s, .fin _ => .inf s
  | .fin _, .inf t => .inf (!t)
  | _, _ => .nan

/-- The expression `v * 100`: `ToNumber` of `v`, then the binary64 product. -/
def times100 (v : JSValue) : JSNumber := (toNumber v).mul (.fin 100)

/-- The global `parseFloat` on the values of `JSValue`: `undefined` and `null` give `NaN`, a
number comes back as itself. -/
def parseFloat : JSValue → JSNumber
  | .number x => x
  | _ => .nan

/-- Truthiness of a value read as a condition: `undefined`, `null`, `NaN` and `0` are falsy. -/
def JSValue.truthy : JSValue → Bool
  | .number (.fin q) => decide (q ≠ 0)
  | .number (.inf _) => true
  | _ => false

/-! ## Host library -/

/-- A `Date` object: its time value in milliseconds, `none` for an invalid date. -/
structure JSDate where
  timeValue : Option ℤ
  deriving DecidableEq, Repr

/-- The functions of the JavaScript host that the component calls. -/
structure Host where
  /-- `new Date(s)` -/
  newDate : String → JSDate
  /-- `Date.prototype.toDateString` -/
  toDateString : JSDate → String
  /-- `Date.prototype.toLocaleDateString` -/
  toLocaleDateString : JSDate → String
  /-- `Date.prototype.toLocaleTimeString` -/
  toLocaleTimeString : JSDate → String
  /-- `Number::toString` for a magnitude of at least `10^21` -/
  numberToString : ℚ → String

/-- Two digits of a number below one hundred. -/
def twoDigits (n : ℕ) : String :=
  if n < 10 then "0" ++ toString n else toString n

/-- `Number.prototype.toFixed(2)` as a string. -/
def toFixed2 (h : Host) : JSNumber → String
  | .nan => "NaN"
  | .inf negative => if negative then "-Infinity" else "Infinity"
  | .fin q =>
    if (10 : ℚ) ^ 21 ≤ |q| then h.numberToString q
    else
      let n := (hundredths |q|).toNat
      (if q < 0 then "-" else "") ++ toString (n / 100) ++ "." ++ twoDigits (n % 100)

/-! ## Data model -/

/-- An element of the array answered by `GET /cyclist/sessions`. -/
structure SessionSummary where
  /-- the identifier, as the template literal prints it -/
  sessionID : String
  start_time : String
  deriving DecidableEq, Repr

/-- The object `hill_data` of a session. -/
structure HillData where
  num_hills : JSValue := .undefined
  avg_altitude : JSValue := .undefined
  avg_ascent : JSValue := .undefined
  distance_hills : JSValue := .undefined
  hills_share : JSValue := .undefined
  deriving DecidableEq, Repr

/-- The object `weather` of a session; `condition` is a string when present. -/
structure Weather where
  temp_c : JSValue := .undefined
  condition : Option String := none
  wind_kph : JSValue := .undefined
  humidity : JSValue := .undefined
  deriving DecidableEq, Repr

/-- The object answered by `GET /cyclist/session/:id`.  An optional field is `none` when the
property is absent or `null`. -/
structure SessionDetail where
  start_time : String := ""
  altitude_avg : JSValue := .undefined
  altitude_max : JSValue := .undefined
  altitude_min : JSValue := .undefined
  ascent : JSValue := .undefined
  calories : JSValue := .undefined
  descent : JSValue := .undefined
  distance : JSValue := .undefined
  duration : JSValue := .undefined
  hr_avg : JSValue := .undefined
  hr_max : JSValue := .undefined
  hr_min : JSValue := .undefined
  total_distance : JSValue := .undefined
  weather : Option Weather := none
  positions : Option (List (ℚ × ℚ)) := none
  timestamps : Option (List String) := none
  speeds : Option (List JSValue) := none
  heartrates : Option (List JSValue) := none
  altitudes : Option (List JSValue) := none
  hill_data : Option HillData := none
  deriving DecidableEq, Repr

/-! ## Chart view models -/

/-- The `backgroundColor` of a dataset: one colour, or one per value. -/
inductive Color where
  | single (c : String)
  | each (cs : List String)
  deriving DecidableEq, Repr

/-- One entry of `datasets`. -/
structure Dataset where
  label : Option String
  data : List JSValue
  borderColor : Option String
  backgroundColor : Color
  fill : Option Bool
  yAxisID : Option String
  deriving DecidableEq, Repr

/-- The `data` object handed to a chart; `L` is the type of its labels. -/
structure ChartData (L : Type) where
  labels : List L
  datasets : List Dataset
  deriving DecidableEq, Repr

/-- The function `formatChartData(data, label)`; `data` is `none` when the argument is absent. -/
def formatChartData (data : Option (List JSValue)) (label : String) : ChartData ℕ :=
  { labels :=
      match data with
      | some xs => xs.enum.map (fun p => p.1)
      | none => []
    datasets := [
      { label := some label
        data :=
          match data with
          | some xs => xs.map roundOrPass
          | none => []
        borderColor := some "rgba(75,192,192,1)"
        backgroundColor := .single "rgba(75,192,192,0.2)"
        fill := some true
        yAxisID := none }] }

/-- The function `getSpeedVsHeartRateData()`, reading `selectedSession`. -/
def getSpeedVsHeartRateData (h : Host) (selectedSession : Option SessionDetail) :
    ChartData String :=
  match selectedSession with
  | none => { labels := [], datasets := [] }
  | some s =>
    match s.timestamps, s.speeds, s.heartrates with
    | some timestamps, some speeds, some heartrates =>
      { labels := timestamps.map (fun ts => h.toLocaleTimeString (h.newDate ts))
        datasets := [
          { label := some "Speed (km/h)"
            data := speeds.map roundOrPass
            borderColor := some "rgba(75,192,192,1)"
            backgroundColor := .single "rgba(75,192,192,0.2)"
            fill := some false
            yAxisID := some "y1" },
          { label := some "Heart Rate (bpm)"
            data := heartrates.map roundOrPass
            borderColor := some "rgba(255,99,132,1)"
            backgroundColor := .single "rgba(255,99,132,0.2)"
            fill := some false
            yAxisID := some "y2" }] }
    | _, _, _ => { labels := [], datasets := [] }

/-- The fifth bar: `(v !== null && v !== undefined) ? parseFloat((v * 100).toFixed(2)) : v`,
where `v * 100` is the binary64 product. -/
def sharePercent : JSValue → JSValue
  | .undefined => .undefined
  | .null => .null
  | .number x => .number (x.mul (.fin 100)).round2

/-- The function `getHillData()`, reading `selectedSession`. -/
def getHillData (selectedSession : Option SessionDetail) : ChartData String :=
  match selectedSession with
  | none => { labels := [], datasets := [] }
  | some s =>
    match s.hill_data with
    | none => { labels := [], datasets := [] }
    | some hd =>
      { labels := ["Number of Hills", "Avg Altitude (m)", "Avg Ascent (m)",
          "Distance Hills (km)", "Hills Share (%)"]
        datasets := [
          { label := some "Hill Data"
            data := [roundOrPass hd.num_hills, roundOrPass hd.avg_altitude,
              roundOrPass hd.avg_ascent, roundOrPass hd.distance_hills,
              sharePercent hd.hills_share]
            borderColor := none
            backgroundColor := .each ["rgba(75,192,192,0.6)", "rgba(75,75,192,0.6)",
              "rgba(192,75,75,0.6)", "rgba(75,192,75,0.6)", "rgba(192,192,75,0.6)"]
            fill := none
            yAxisID := none }] }

/-- The `data` object of the "Hills Share" pie, built inline in the JSX from `hill_data`:
`[hills_share * 100, 100 - hills_share * 100]`, a binary64 product and a binary64 difference. -/
def hillsShareData (hd : HillData) : ChartData String :=
  { labels := ["Hills", "Flat"]
    datasets := [
      { label := none
        data := [.number (times100 hd.hills_share),
          .number ((JSNumber.fin 100).sub (times100 hd.hills_share))]
        borderColor := none
        backgroundColor := .each ["rgba(75,192,192,0.6)", "rgba(192,75,75,0.6)"]
        fill := none
        yAxisID := none }] }

/-! ## View state and its events -/

/-- The four `useState` cells of the component. -/
structure ViewState where
  sessions : List SessionSummary
  selectedSession : Option SessionDetail
  error : String
  loading : Bool
  deriving DecidableEq, Repr

/-- The state on mount: `useState([])`, `useState(null)`, `useState('')`, `useState(true)`. -/
def ViewState.initial : ViewState :=
  { sessions := [], selectedSession := none, error := "", loading := true }

/-- The message set by the `catch` callback of the directory fetch. -/
def sessionsFailure : String := "Failed to fetch sessions. Please try again later."

/-- The message set by the `catch` callback of the detail fetch. -/
def detailFailure : String := "Failed to fetch session details. Please try again later."

/-- What can happen to the view state: the body of either effect runs (on mount and whenever its
dependencies change), or the promise of a fetch settles. -/
inductive Event where
  /-- the body of the first `useEffect`, which starts the directory fetch -/
  | sessionsEffect
  /-- the `then` callback of the directory fetch, with `response.data` -/
  | sessionsResolved (data : List SessionSummary)
  /-- the `catch` callback of the directory fetch -/
  | sessionsRejected
  /-- the body of the second `useEffect`, with the route parameter `sessionId` -/
  | detailEffect (sessionId : Option String)
  /-- the `then` callback of the detail fetch, with `response.data` -/
  | detailResolved (data : SessionDetail)
  /-- the `catch` callback of the detail fetch -/
  | detailRejected
  deriving DecidableEq, Repr

/-- The state setters that one event calls. -/
def step (st : ViewState) : Event → ViewState
  | .sessionsEffect => { st with error := "", loading := true }
  | .sessionsResolved data => { st with sessions := data, loading := false }
  | .sessionsRejected => { st with error := sessionsFailure, loading := false }
  | .detailEffect sessionId =>
    match sessionId with
    | some id => if id ≠ "" then { st with error := "", loading := true } else st
    | none => st
  | .detailResolved data => { st with selectedSession := some data, loading := false }
  | .detailRejected => { st with error := detailFailure, loading := false }

/-- The state after a sequence of events, oldest first. -/
def run (st : ViewState) (events : List Event) : ViewState :=
  events.foldl step st

/-! ## Day-to-session resolution -/

/-- The callback given to `find` and to `some`:
`new Date(session.start_time).toDateString() === value.toDateString()`. -/
def sameDay (h : Host) (value : JSDate) (session : SessionSummary) : Bool :=
  h.toDateString (h.newDate session.start_time) == h.toDateString value

/-- The handler `onDayClick(value)`: the path handed to `navigate`, or `none` when `navigate` is
not called. -/
def onDayClick (h : Host) (sessions : List SessionSummary) (value : JSDate) : Option String :=
  match sessions.find? (sameDay h value) with
  | some selectedSession => some ("/dashboard/calendar/" ++ selectedSession.sessionID)
  | none => none

/-! ## Render output -/

/-- An exception thrown while the component renders. -/
inductive JSError where
  /-- a property was read from `undefined` or `null` -/
  | typeError (property : String)
  deriving DecidableEq, Repr

/-- The calendar element: its click handler and whether a day tile carries the session marker. -/
structure CalendarView where
  onClickDay : JSDate → Option String
  tileContent : JSDate → Bool

/-- The four lines of the weather card. -/
structure WeatherPanel where
  temperature : String
  condition : String
  windSpeed : String
  humidity : String
  deriving DecidableEq, Repr

/-- The route map. -/
structure RoutePanel where
  center : ℚ × ℚ
  polyline : List (ℚ × ℚ)
  startMarker : ℚ × ℚ
  endMarker : ℚ × ℚ
  deriving DecidableEq, Repr

/-- The block rendered under the calendar for the selected session. -/
structure DetailPanel where
  date : String
  cards : List (String × String)
  weather : Option WeatherPanel
  route : Option RoutePanel
  hillData : ChartData String
  hillsShare : ChartData String
  altitude : ChartData ℕ
  heartRate : ChartData ℕ
  speed : ChartData ℕ
  speedVsHeartRate : ChartData String
  deriving DecidableEq, Repr

/-- What the component returns. -/
inductive View where
  /-- `<div>Loading sessions...</div>` -/
  | loading
  /-- `<div>{error}</div>` -/
  | error (message : String)
  /-- the container with the calendar and, when a session is selected, its details -/
  | shell (calendar : CalendarView) (detail : Option DetailPanel)

/-- Whether the output contains the calendar element. -/
def View.hasCalendar : View → Bool
  | .shell _ _ => true
  | _ => false

/-- The text of the output when it is nothing but a text. -/
def View.text : View → Option String
  | .loading => some "Loading sessions..."
  | .error message => some message
  | .shell _ _ => none

/-- The text of one summary card: `parseFloat(v).toFixed(2)` and the unit. -/
def cardText (h : Host) (v : JSValue) (unit : String) : String :=
  toFixed2 h (parseFloat v) ++ " " ++ unit

/-- The twelve summary cards, title and text. -/
def cards (h : Host) (s : SessionDetail) : List (String × String) :=
  [("Altitude Avg", cardText h s.altitude_avg "m"),
   ("Altitude Max", cardText h s.altitude_max "m"),
   ("Altitude Min", cardText h s.altitude_min "m"),
   ("Ascent", cardText h s.ascent "m"),
   ("Calories", cardText h s.calories "kcal"),
   ("Descent", cardText h s.descent "m"),
   ("Distance", cardText h s.distance "km"),
   ("Duration", cardText h s.duration "seconds"),
   ("HR Avg", cardText h s.hr_avg "bpm"),
   ("HR Max", cardText h s.hr_max "bpm"),
   ("HR Min", cardText h s.hr_min "bpm"),
   ("Total Distance", cardText h s.total_distance "km")]

/-- One numeric line of the weather card: `v ? parseFloat(v).toFixed(2) + suffix : 'N/A'`. -/
def weatherNumber (h : Host) (v : JSValue) (suffix : String) : String :=
  if v.truthy then toFixed2 h (parseFloat v) ++ suffix else "N/A"

/-- The line `condition ? condition : 'N/A'`; the empty string is falsy. -/
def weatherCondition : Option String → String
  | some c => if c ≠ "" then c else "N/A"
  | none => "N/A"

/-- The weather card, rendered when `selectedSession.weather` is present. -/
def weatherPanel (h : Host) (w : Weather) : WeatherPanel :=
  { temperature := weatherNumber h w.temp_c "°C"
    condition := weatherCondition w.condition
    windSpeed := weatherNumber h w.wind_kph " kph"
    humidity := weatherNumber h w.humidity "%" }

/-- The route map, rendered when `positions` is present and not empty. -/
def routePanel : Option (List (ℚ × ℚ)) → Option RoutePanel
  | some (p :: ps) =>
    some { center := p, polyline := p :: ps, startMarker := p, endMarker := (p :: ps).getLastD p }
  | _ => none

/-- The calendar element over the current `sessions`. -/
def calendar (h : Host) (sessions : List SessionSummary) : CalendarView :=
  { onClickDay := onDayClick h sessions
    tileContent := fun date => sessions.any (sameDay h date) }

/-- The block `selectedSession && (...)`.  The pie reads `selectedSession.hill_data.hills_share`
without a guard, which throws when `hill_data` is absent. -/
def detailPanel (h : Host) (s : SessionDetail) : Except JSError DetailPanel :=
  let date := h.toLocaleDateString (h.newDate s.start_time)
  let cardList := cards h s
  let weather := s.weather.map (weatherPanel h)
  let route := routePanel s.positions
  let hillData := getHillData (some s)
  match s.hill_data with
  | none => .error (.typeError "hills_share")
  | some hd =>
    .ok { date := date
          cards := cardList
          weather := weather
          route := route
          hillData := hillData
          hillsShare := hillsShareData hd
          altitude := formatChartData s.altitudes "Altitude"
          heartRate := formatChartData s.heartrates "Heart Rate"
          speed := formatChartData s.speeds "Speed"
          speedVsHeartRate := getSpeedVsHeartRateData h (some s) }

/-- The value returned by the component for a view state, or the exception it throws. -/
def render (h : Host) (st : ViewState) : Except JSError View :=
  if st.loading then .ok .loading
  else if st.error ≠ "" then .ok (.error st.error)
  else
    match st.selectedSession with
    | none => .ok (.shell (calendar h st.sessions) none)
    | some s =>
      match detailPanel h s with
      | .ok panel => .ok (.shell (calendar h st.sessions) (some panel))
      | .error e => .error e

/-- The data of dataset number `k`, empty when there is no such dataset. -/
def ChartData.series {L : Type} (c : ChartData L) (k : ℕ) : List JSValue :=
  match c.datasets[k]? with
  | some ds => ds.data
  | none => []

/-- The `yAxisID` of dataset number `k`. -/
def ChartData.axis {L : Type} (c : ChartData L) (k : ℕ) : Option String :=
  match c.datasets[k]? with
  | some ds => ds.yAxisID
  | none => none


/-! ## Worked inputs -/

/-- A host for the worked inputs: it knows three instants and prints them as a host in the UTC
time zone with the en-US locale would. -/
def exampleHost : Host :=
  { newDate := fun s =>
      if s = "2024-01-01T10:00:00Z" then ⟨some 1704103200000⟩
      else if s = "2024-01-01T18:00:00Z" then ⟨some 1704132000000⟩
      else if s = "2024-01-02T08:30:00Z" then ⟨some 1704184200000⟩
      else ⟨none⟩
    toDateString := fun d =>
      match d.timeValue with
      | some t =>
        if t / 86400000 = 19723 then "Mon Jan 01 2024"
        else if t / 86400000 = 19724 then "Tue Jan 02 2024"
        else "Thu Jan 01 1970"
      | none => "Invalid Date"
    toLocaleDateString := fun d =>
      match d.timeValue with
      | some t =>
        if t / 86400000 = 19723 then "1/1/2024"
        else if t / 86400000 = 19724 then "1/2/2024"
        else "1/1/1970"
      | none => "Invalid Date"
    toLocaleTimeString := fun d =>
      match d.timeValue with
      | some t =>
        if t = 1704103200000 then "10:00:00 AM"
        else if t = 1704132000000 then "6:00:00 PM"
        else if t = 1704184200000 then "8:30:00 AM"
        else "12:00:00 AM"
      | none => "Invalid Date"
    numberToString := fun _ => "1e+21" }

/-- A directory of three sessions, two of them on the first of January. -/
def exampleSessions : List SessionSummary :=
  [{ sessionID := "7", start_time := "2024-01-01T10:00:00Z" },
   { sessionID := "8", start_time := "2024-01-01T18:00:00Z" },
   { sessionID := "9", start_time := "2024-01-02T08:30:00Z" }]

/-- Hill statistics with a share of a quarter. -/
def quarterHills : HillData :=
  { num_hills := .number (.fin 3), avg_altitude := .number (.fin 250),
    avg_ascent := .number (.fin 40), distance_hills := .number (.fin 5),
    hills_share := .number (.fin (1 / 4)) }

/-- Hill statistics with a share of `1/1024 = 0.0009765625`. -/
def slightHills : HillData :=
  { num_hills := .number (.fin 1), hills_share := .number (.fin (1 / 1024)) }

/-- The binary64 number that the literal `0.07` denotes, `1261007895663739 / 2^54`. -/
def sevenHundredths : ℚ := 1261007895663739 / 18014398509481984

/-- The binary64 number that the literal `0.00075` denotes, `3458764513820541 / 2^62`. -/
def threeQuarterThousandths : ℚ := 3458764513820541 / 4611686018427387904

/-- Hill statistics with a share of `0.07`. -/
def sevenPercentHills : HillData :=
  { num_hills := .number (.fin 2), hills_share := .number (.fin sevenHundredths) }

/-- Hill statistics with a share of `0.00075`. -/
def faintHills : HillData :=
  { num_hills := .number (.fin 1), hills_share := .number (.fin threeQuarterThousandths) }

/-- A session whose hill statistics are `sevenPercentHills`. -/
def sevenPercentDetail : SessionDetail :=
  { start_time := "2024-01-01T10:00:00Z", hill_data := some sevenPercentHills }

/-- A session whose hill statistics are `faintHills`. -/
def faintDetail : SessionDetail :=
  { start_time := "2024-01-01T10:00:00Z", hill_data := some faintHills }

/-- A session whose hill statistics are `quarterHills`. -/
def quarterDetail : SessionDetail :=
  { start_time := "2024-01-01T10:00:00Z", hill_data := some quarterHills }

/-- A session whose hill statistics are `slightHills`. -/
def slightDetail : SessionDetail :=
  { start_time := "2024-01-01T10:00:00Z", hill_data := some slightHills }

/-- A session with one sample and without `hill_data`. -/
def sampleDetail : SessionDetail :=
  { start_time := "2024-01-01T10:00:00Z"
    timestamps := some ["2024-01-01T10:00:00Z"]
    speeds := some [.number (.fin (10004 / 1000))]
    heartrates := some [.number (.fin (1425 / 10))] }

/-- Weather at the freezing point with no wind. -/
def freezingCalm : Weather :=
  { temp_c := .number (.fin 0), condition := some "Clear", wind_kph := .number (.fin 0),
    humidity := .number (.fin 50) }

/-- The directory is loaded, then fetched again (the token changed) and that fetch fails. -/
def failedRefetch : List Event :=
  [.sessionsEffect, .sessionsResolved exampleSessions, .sessionsEffect, .sessionsRejected]

/-- The directory is loaded, a day is opened and the detail fetch fails. -/
def failedDetail : List Event :=
  [.sessionsEffect, .sessionsResolved exampleSessions, .detailEffect (some "7"), .detailRejected]

/-- The directory is loaded, a day is opened and the detail arrives without `hill_data`. -/
def loadedWithoutHills : List Event :=
  [.sessionsEffect, .sessionsResolved exampleSessions, .detailEffect (some "7"),
   .detailResolved sampleDetail]

/-! ## Rounding to hundredths -/

theorem hundredths_le (x : ℚ) : (hundredths x : ℚ) ≤ x * 100 + 1 / 2 :=
  Int.floor_le _

theorem lt_hundredths_add_one (x : ℚ) : x * 100 + 1 / 2 < (hundredths x : ℚ) + 1 :=
  Int.lt_floor_add_one _

theorem hundredths_intCast_div (n : ℤ) : hundredths ((n : ℚ) / 100) = n := by
  unfold hundredths
  rw [Int.floor_eq_iff]
  constructor
  · have : (n : ℚ) / 100 * 100 = n := by field_simp
    linarith
  · have : (n : ℚ) / 100 * 100 = n := by field_simp
    linarith

/-- The rounded value is a whole number of hundredths. -/
theorem round2_eq_intCast_div (x : ℚ) : ∃ n : ℤ, round2 x = (n : ℚ) / 100 := by
  unfold round2
  split
  · exact ⟨-hundredths (-x), by push_cast; ring⟩
  · exact ⟨hundredths x, rfl⟩

/-- The rounded value is within half a hundredth of the input. -/
theorem abs_round2_sub_le (x : ℚ) : |round2 x - x| ≤ 1 / 200 := by
  unfold round2
  split
  · have h1 := hundredths_le (-x)
    have h2 := lt_hundredths_add_one (-x)
    rw [abs_le]
    constructor <;> linarith
  · have h1 := hundredths_le x
    have h2 := lt_hundredths_add_one x
    rw [abs_le]
    constructor <;> linarith

/-- A whole number of hundredths is its own rounding. -/
theorem round2_intCast_div (n : ℤ) : round2 ((n : ℚ) / 100) = (n : ℚ) / 100 := by
  unfold round2
  split
  · have h : -((n : ℚ) / 100) = ((-n : ℤ) : ℚ) / 100 := by push_cast; ring
    rw [h, hundredths_intCast_div]
    push_cast
    ring
  · rw [hundredths_intCast_div]

theorem round2_round2 (x : ℚ) : round2 (round2 x) = round2 x := by
  obtain ⟨n, hn⟩ := round2_eq_intCast_div x
  rw [hn, round2_intCast_div]

theorem JSNumber.round2_idem (x : JSNumber) : x.round2.round2 = x.round2 := by
  cases x with
  | nan => rfl
  | inf negative => rfl
  | fin q => simp [JSNumber.round2, HistoryCalendar.round2_round2]

theorem roundOrPass_roundOrPass (v : JSValue) : roundOrPass (roundOrPass v) = roundOrPass v := by
  cases v with
  | undefined => rfl
  | null => rfl
  | number x => simp [roundOrPass, JSNumber.round2_idem]

/-- Evaluation of `hundredths` from the two bounds on the chosen integer. -/
theorem hundredths_eq_of_bounds {x : ℚ} (n : ℤ) (h1 : (n : ℚ) ≤ x * 100 + 1 / 2)
    (h2 : x * 100 + 1 / 2 < (n : ℚ) + 1) : hundredths x = n := by
  unfold hundredths
  exact Int.floor_eq_iff.mpr ⟨h1, h2⟩

/-- Evaluation of `round2` at a non-negative input from the two bounds on the chosen integer. -/
theorem round2_eq_of_bounds {x : ℚ} (n : ℤ) (h0 : 0 ≤ x) (h1 : (n : ℚ) ≤ x * 100 + 1 / 2)
    (h2 : x * 100 + 1 / 2 < (n : ℚ) + 1) : round2 x = (n : ℚ) / 100 := by
  unfold round2 hundredths
  rw [if_neg (not_lt.mpr h0), Int.floor_eq_iff.mpr ⟨h1, h2⟩]

/-! ## Rounding to binary64 -/

theorem log_eq_of_bounds {x : ℚ} (e : ℤ) (hlo : (2 : ℚ) ^ e ≤ x) (hhi : x < (2 : ℚ) ^ (e + 1)) :
    Int.log 2 x = e := by
  have hx : 0 < x := lt_of_lt_of_le (by positivity) hlo
  have h1 : e ≤ Int.log 2 x := (Int.zpow_le_iff_le_log (by norm_num) hx).mp (by simpa using hlo)
  have h2 : Int.log 2 x < e + 1 :=
    (Int.lt_zpow_iff_log_lt (by norm_num) hx).mp (by simpa using hhi)
  omega

/-- Evaluation of `roundHalfEven` away from a tie. -/
theorem roundHalfEven_eq_of_lt {y : ℚ} (n : ℤ) (h1 : (n : ℚ) - 1 / 2 < y)
    (h2 : y < (n : ℚ) + 1 / 2) : roundHalfEven y = n := by
  unfold roundHalfEven
  by_cases hy : (n : ℚ) ≤ y
  · have hf : ⌊y⌋ = n := Int.floor_eq_iff.mpr ⟨hy, by linarith⟩
    rw [hf, if_pos (by linarith)]
  · have hf : ⌊y⌋ = n - 1 :=
      Int.floor_eq_iff.mpr ⟨by push_cast; linarith, by push_cast; linarith⟩
    rw [hf]
    push_cast
    rw [if_neg (by linarith), if_pos (by linarith)]
    ring

theorem abs_roundHalfEven_sub_le (y : ℚ) : |(roundHalfEven y : ℚ) - y| ≤ 1 / 2 := by
  have h1 := Int.floor_le y
  have h2 := Int.lt_floor_add_one y
  unfold roundHalfEven
  split_ifs <;> push_cast <;> rw [abs_le] <;> constructor <;> linarith

theorem ulpExponent_eq_of_bounds {x : ℚ} (e : ℤ) (he : -1022 ≤ e) (hlo : (2 : ℚ) ^ e ≤ |x|)
    (hhi : |x| < (2 : ℚ) ^ (e + 1)) : ulpExponent x = e - 52 := by
  unfold ulpExponent
  rw [log_eq_of_bounds e hlo hhi]
  exact max_eq_left (by omega)

/-- Evaluation of `toBinary64` at a normal number: with `2^e ≤ |x| < 2^(e+1)` the result is
`n * 2^(e-52)` for the integer `n` nearest to `x / 2^(e-52)`. -/
theorem toBinary64_eq_of_bounds {x : ℚ} (e n : ℤ) (he : -1022 ≤ e) (hlo : (2 : ℚ) ^ e ≤ |x|)
    (hhi : |x| < (2 : ℚ) ^ (e + 1)) (h1 : (n : ℚ) - 1 / 2 < x / 2 ^ (e - 52))
    (h2 : x / 2 ^ (e - 52) < (n : ℚ) + 1 / 2) (hfin : |(n : ℚ) * 2 ^ (e - 52)| < 2 ^ 1024) :
    toBinary64 x = .fin ((n : ℚ) * 2 ^ (e - 52)) := by
  unfold toBinary64
  rw [ulpExponent_eq_of_bounds e he hlo hhi, roundHalfEven_eq_of_lt n h1 h2,
    if_neg (not_le.mpr hfin)]

/-- A finite result of `toBinary64` lies within half a spacing of the exact value. -/
theorem abs_sub_le_of_toBinary64_eq {x q : ℚ} (h : toBinary64 x = .fin q) :
    |q - x| ≤ 2 ^ ulpExponent x / 2 := by
  unfold toBinary64 at h
  split at h
  · exact absurd h (by simp)
  · injection h with h
    have hu : (0 : ℚ) < 2 ^ ulpExponent x := by positivity
    have hr := abs_roundHalfEven_sub_le (x / 2 ^ ulpExponent x)
    have hx : q - x = ((roundHalfEven (x / 2 ^ ulpExponent x) : ℚ) - x / 2 ^ ulpExponent x) *
        2 ^ ulpExponent x := by
      rw [← h]; field_simp
    rw [hx, abs_mul, abs_of_pos hu]
    calc |(roundHalfEven (x / 2 ^ ulpExponent x) : ℚ) - x / 2 ^ ulpExponent x| *
          2 ^ ulpExponent x
        ≤ 1 / 2 * 2 ^ ulpExponent x := mul_le_mul_of_nonneg_right hr hu.le
      _ = 2 ^ ulpExponent x / 2 := by ring

theorem toBinary64_quarter_times_hundred : toBinary64 (1 / 4 * 100) = .fin 25 := by
  rw [toBinary64_eq_of_bounds 4 7036874417766400 (by norm_num) (by norm_num [abs_of_pos])
    (by norm_num [abs_of_pos]) (by norm_num) (by norm_num) (by norm_num [abs_of_pos])]
  norm_num

theorem toBinary64_hundred_sub_quarter : toBinary64 (100 - 25) = .fin 75 := by
  rw [toBinary64_eq_of_bounds 6 5277655813324800 (by norm_num) (by norm_num [abs_of_pos])
    (by norm_num [abs_of_pos]) (by norm_num) (by norm_num) (by norm_num [abs_of_pos])]
  norm_num

theorem toBinary64_slight_times_hundred : toBinary64 (1 / 1024 * 100) = .fin (25 / 256) := by
  rw [toBinary64_eq_of_bounds (-4) 7036874417766400 (by norm_num) (by norm_num [abs_of_pos])
    (by norm_num [abs_of_pos]) (by norm_num) (by norm_num) (by norm_num [abs_of_pos])]
  norm_num

/-- In binary64, `0.07 * 100` is `7.000000000000001`, that is `7 + 2^-50`. -/
theorem toBinary64_seven_times_hundred :
    toBinary64 (sevenHundredths * 100) = .fin (7881299347898369 / 1125899906842624) := by
  unfold sevenHundredths
  rw [toBinary64_eq_of_bounds 2 7881299347898369 (by norm_num) (by norm_num [abs_of_pos])
    (by norm_num [abs_of_pos]) (by norm_num) (by norm_num) (by norm_num [abs_of_pos])]
  norm_num

/-- In binary64, `100 - 7.000000000000001` is `93`. -/
theorem toBinary64_hundred_sub_seven :
    toBinary64 (100 - 7881299347898369 / 1125899906842624) = .fin 93 := by
  rw [toBinary64_eq_of_bounds 6 6544293208522752 (by norm_num) (by norm_num [abs_of_pos])
    (by norm_num [abs_of_pos]) (by norm_num) (by norm_num) (by norm_num [abs_of_pos])]
  norm_num

/-- In binary64, `0.00075 * 100` is the number that `0.075` denotes, which lies below `0.075`. -/
theorem toBinary64_faint_times_hundred :
    toBinary64 (threeQuarterThousandths * 100) = .fin (5404319552844595 / 72057594037927936) := by
  unfold threeQuarterThousandths
  rw [toBinary64_eq_of_bounds (-4) 5404319552844595 (by norm_num) (by norm_num [abs_of_pos])
    (by norm_num [abs_of_pos]) (by norm_num) (by norm_num) (by norm_num [abs_of_pos])]
  norm_num

theorem formatChartData_labels (data : List JSValue) (label : String) :
    (formatChartData (some data) label).labels = List.range data.length := by
  simp only [formatChartData]
  exact List.enum_map_fst data

theorem formatChartData_series (data : List JSValue) (label : String) :
    (formatChartData (some data) label).series 0 = data.map roundOrPass := by
  simp [formatChartData, ChartData.series]

/-- The first element that satisfies `p` is the one at the least index where `p` holds. -/
theorem find?_eq_some_iff_first {α : Type} (p : α → Bool) (l : List α) (a : α) :
    l.find? p = some a ↔
      ∃ i : ℕ, l[i]? = some a ∧ p a = true ∧
        ∀ j : ℕ, j < i → ∀ b : α, l[j]? = some b → p b = false := by
  induction l with
  | nil => simp
  | cons x xs ih =>
    cases hx : p x with
    | true =>
      rw [List.find?_cons_of_pos _ hx]
      constructor
      · intro h
        have hxa : x = a := Option.some.inj h
        subst hxa
        exact ⟨0, by simp, hx, fun j hj => absurd hj (Nat.not_lt_zero j)⟩
      · rintro ⟨i, hi, _, hfirst⟩
        cases i with
        | zero => simpa using hi
        | succ k =>
          have := hfirst 0 (Nat.succ_pos k) x (by simp)
          rw [hx] at this
          exact absurd this (by decide)
    | false =>
      rw [List.find?_cons_of_neg _ (by simp [hx]), ih]
      constructor
      · rintro ⟨i, hi, hpa, hfirst⟩
        refine ⟨i + 1, by simpa using hi, hpa, ?_⟩
        intro j hj b hb
        cases j with
        | zero =>
          have hxb : x = b := by simpa using hb
          rw [← hxb]; exact hx
        | succ k => exact hfirst k (Nat.lt_of_succ_lt_succ hj) b (by simpa using hb)
      · rintro ⟨i, hi, hpa, hfirst⟩
        cases i with
        | zero =>
          have hxa : x = a := by simpa using hi
          rw [← hxa, hx] at hpa
          exact absurd hpa (by decide)
        | succ k =>
          refine ⟨k, by simpa using hi, hpa, ?_⟩
          intro j hj b hb
          exact hfirst (j + 1) (Nat.succ_lt_succ hj) b (by simpa using hb)

theorem sameDay_iff (h : Host) (value : JSDate) (session : SessionSummary) :
    sameDay h value session = true ↔
      h.toDateString (h.newDate session.start_time) = h.toDateString value := by
  simp [sameDay]

/-! ## Claims -/

/-- C1. Day-to-session resolution: `onDayClick` navigates to `path` exactly when `path` is
`/dashboard/calendar/` followed by the `sessionID` of the summary at the least index whose
`start_time` prints the same calendar date as the clicked day; it does not navigate exactly when
no summary has that date. -/
theorem onDayClick_first_match (h : Host) (sessions : List SessionSummary) (value : JSDate) :
    (∀ path : String, onDayClick h sessions value = some path ↔
      ∃ (i : ℕ) (s : SessionSummary), sessions[i]? = some s ∧
        h.toDateString (h.newDate s.start_time) = h.toDateString value ∧
        (∀ j : ℕ, j < i → ∀ t : SessionSummary, sessions[j]? = some t →
          h.toDateString (h.newDate t.start_time) ≠ h.toDateString value) ∧
        path = "/dashboard/calendar/" ++ s.sessionID) ∧
    (onDayClick h sessions value = none ↔
      ∀ s ∈ sessions, h.toDateString (h.newDate s.start_time) ≠ h.toDateString value) := by
  constructor
  · intro path
    unfold onDayClick
    constructor
    · intro hp
      cases hf : sessions.find? (sameDay h value) with
      | none => rw [hf] at hp; exact absurd hp (by simp)
      | some s =>
        rw [hf] at hp
        obtain ⟨i, hi, hs, hfirst⟩ := (find?_eq_some_iff_first _ _ _).mp hf
        refine ⟨i, s, hi, (sameDay_iff h value s).mp hs, ?_, (Option.some.inj hp).symm⟩
        intro j hj t ht heq
        have := hfirst j hj t ht
        rw [(sameDay_iff h value t).mpr heq] at this
        exact absurd this (by decide)
    · rintro ⟨i, s, hi, hs, hfirst, hp⟩
      have hf : sessions.find? (sameDay h value) = some s := by
        refine (find?_eq_some_iff_first _ _ _).mpr ⟨i, hi, (sameDay_iff h value s).mpr hs, ?_⟩
        intro j hj t ht
        cases hb : sameDay h value t with
        | false => rfl
        | true => exact absurd ((sameDay_iff h value t).mp hb) (hfirst j hj t ht)
      rw [hf, hp]
  · unfold onDayClick
    cases hf : sessions.find? (sameDay h value) with
    | none =>
      simp only [true_iff]
      intro s hs heq
      exact List.find?_eq_none.mp hf s hs ((sameDay_iff h value s).mpr heq)
    | some s =>
      simp only [false_iff, reduceCtorEq]
      intro hall
      have hmem := List.mem_of_find?_eq_some hf
      have hp := List.find?_some hf
      exact hall s hmem ((sameDay_iff h value s).mp hp)


/-- C2. For a sequence of `n` nullable numbers, `formatChartData` answers the labels
`[0, ..., n-1]` and exactly one dataset whose data has length `n`; position `i` of the data is
`null` exactly when input position `i` is `null`, `undefined` exactly when it is `undefined`, and
for a number `q` it is `q` rounded to two decimals: a whole number of hundredths within half a
hundredth of `q`.  For an absent sequence the labels and the data are empty. -/
theorem formatChartData_spec (data : List JSValue) (label : String) :
    (formatChartData (some data) label).labels = List.range data.length ∧
    (formatChartData (some data) label).datasets.length = 1 ∧
    ((formatChartData (some data) label).series 0).length = data.length ∧
    (∀ i : ℕ,
      (((formatChartData (some data) label).series 0)[i]? = some .null ↔ data[i]? = some .null) ∧
      (((formatChartData (some data) label).series 0)[i]? = some .undefined ↔
        data[i]? = some .undefined) ∧
      (∀ q : ℚ, data[i]? = some (.number (.fin q)) →
        ((formatChartData (some data) label).series 0)[i]? = some (.number (.fin (round2 q))) ∧
        (∃ n : ℤ, round2 q = (n : ℚ) / 100) ∧ |round2 q - q| ≤ 1 / 200)) ∧
    (formatChartData none label).labels = [] ∧
    (formatChartData none label).datasets.length = 1 ∧
    (formatChartData none label).series 0 = [] := by
  refine ⟨formatChartData_labels data label, by simp [formatChartData], ?_, ?_,
    by simp [formatChartData], by simp [formatChartData],
    by simp [formatChartData, ChartData.series]⟩
  · rw [formatChartData_series, List.length_map]
  · intro i
    rw [formatChartData_series, List.getElem?_map]
    refine ⟨?_, ?_, ?_⟩
    · cases hv : data[i]? with
      | none => simp
      | some v => cases v <;> simp [roundOrPass]
    · cases hv : data[i]? with
      | none => simp
      | some v => cases v <;> simp [roundOrPass]
    · intro q hq
      rw [hq]
      exact ⟨rfl, round2_eq_intCast_div q, abs_round2_sub_le q⟩

/-- C3. Formatting is idempotent: formatting the data produced by a first formatting, under any
label, gives the data and the labels of the first formatting again; the chart object is the one
that formatting the original sequence under that label gives. -/
theorem formatChartData_idempotent (data : List JSValue) (label label2 : String) :
    (formatChartData (some ((formatChartData (some data) label).series 0)) label2).series 0 =
      (formatChartData (some data) label).series 0 ∧
    (formatChartData (some ((formatChartData (some data) label).series 0)) label2).labels =
      (formatChartData (some data) label).labels ∧
    formatChartData (some ((formatChartData (some data) label).series 0)) label2 =
      formatChartData (some data) label2 := by
  have key : formatChartData (some ((formatChartData (some data) label).series 0)) label2 =
      formatChartData (some data) label2 := by
    rw [formatChartData_series]
    simp only [formatChartData, List.map_map]
    congr 1
    · rw [List.enum_map_fst, List.enum_map_fst, List.length_map]
    · have : roundOrPass ∘ roundOrPass = roundOrPass := funext roundOrPass_roundOrPass
      rw [this]
  refine ⟨?_, ?_, key⟩
  · rw [key, formatChartData_series, formatChartData_series]
  · rw [key, formatChartData_labels, formatChartData_labels]

theorem getHillData_series (s : SessionDetail) (hd : HillData) (hs : s.hill_data = some hd) :
    (getHillData (some s)).series 0 =
      [roundOrPass hd.num_hills, roundOrPass hd.avg_altitude, roundOrPass hd.avg_ascent,
        roundOrPass hd.distance_hills, sharePercent hd.hills_share] := by
  simp [getHillData, ChartData.series, hs]

theorem hillsShareData_series (hd : HillData) (r : ℚ) (hr : hd.hills_share = .number (.fin r)) :
    (hillsShareData hd).series 0 =
      [.number ((JSNumber.fin r).mul (.fin 100)),
        .number ((JSNumber.fin 100).sub ((JSNumber.fin r).mul (.fin 100)))] := by
  simp [hillsShareData, ChartData.series, hr, times100, toNumber]

theorem getHillData_share (s : SessionDetail) (hd : HillData) (r : ℚ)
    (hs : s.hill_data = some hd) (hr : hd.hills_share = .number (.fin r)) :
    ((getHillData (some s)).series 0)[4]? =
      some (.number ((JSNumber.fin r).mul (.fin 100)).round2) := by
  rw [getHillData_series s hd hs, hr]
  simp [sharePercent]

/-- C4, as stated, fails at three shares.  At `1/1024` the fifth bar is `0.1` while the first
slice of the pie is `0.09765625`: the slice is not rounded.  At `0.07` the bar is `7` while the
pie is `[7.000000000000001, 93]`: the slice is not the bar and the two slices do not sum to 100.
At `0.00075` the bar is `0.07` while the exact product rounds to `0.08`: the bar rounds the
binary64 product. -/
theorem pie_slice_ne_bar_share :
    (((getHillData (some slightDetail)).series 0)[4]? = some (.number (.fin (1 / 10))) ∧
      (hillsShareData slightHills).series 0 =
        [.number (.fin (25 / 256)), .number (.fin (25575 / 256))] ∧
      ((hillsShareData slightHills).series 0)[0]? ≠
        ((getHillData (some slightDetail)).series 0)[4]?) ∧
    (((getHillData (some sevenPercentDetail)).series 0)[4]? = some (.number (.fin 7)) ∧
      (hillsShareData sevenPercentHills).series 0 =
        [.number (.fin (7881299347898369 / 1125899906842624)), .number (.fin 93)] ∧
      ((hillsShareData sevenPercentHills).series 0)[0]? ≠
        ((getHillData (some sevenPercentDetail)).series 0)[4]? ∧
      ¬ ∃ hills flat : ℚ, (hillsShareData sevenPercentHills).series 0 =
        [.number (.fin hills), .number (.fin flat)] ∧ hills + flat = 100) ∧
    (((getHillData (some faintDetail)).series 0)[4]? = some (.number (.fin (7 / 100))) ∧
      round2 (threeQuarterThousandths * 100) = 8 / 100) := by
  have hflat : toBinary64 (100 - 25 / 256) = .fin (25575 / 256) := by
    rw [toBinary64_eq_of_bounds 6 7030002470092800 (by norm_num) (by norm_num [abs_of_pos])
      (by norm_num [abs_of_pos]) (by norm_num) (by norm_num) (by norm_num [abs_of_pos])]
    norm_num
  have hbar1 : round2 (25 / 256) = 1 / 10 := by
    rw [round2_eq_of_bounds 10 (by norm_num) (by norm_num) (by norm_num)]
    norm_num
  have hbar2 : round2 (7881299347898369 / 1125899906842624) = 7 := by
    rw [round2_eq_of_bounds 700 (by norm_num) (by norm_num) (by norm_num)]
    norm_num
  have hbar3 : round2 (5404319552844595 / 72057594037927936) = 7 / 100 := by
    rw [round2_eq_of_bounds 7 (by norm_num) (by norm_num) (by norm_num)]
    norm_num
  have hexact : round2 (threeQuarterThousandths * 100) = 8 / 100 := by
    unfold threeQuarterThousandths
    rw [round2_eq_of_bounds 8 (by norm_num) (by norm_num) (by norm_num)]
    norm_num
  have b1 : ((getHillData (some slightDetail)).series 0)[4]? =
      some (.number (.fin (1 / 10))) := by
    rw [getHillData_share slightDetail slightHills (1 / 1024) rfl rfl]
    show some (JSValue.number (toBinary64 (1 / 1024 * 100)).round2) = _
    rw [toBinary64_slight_times_hundred]
    simp [JSNumber.round2, hbar1]
  have p1 : (hillsShareData slightHills).series 0 =
      [.number (.fin (25 / 256)), .number (.fin (25575 / 256))] := by
    rw [hillsShareData_series slightHills (1 / 1024) rfl]
    show [JSValue.number (toBinary64 (1 / 1024 * 100)),
      JSValue.number ((JSNumber.fin 100).sub (toBinary64 (1 / 1024 * 100)))] = _
    rw [toBinary64_slight_times_hundred]
    show [JSValue.number (.fin (25 / 256)), JSValue.number (toBinary64 (100 - 25 / 256))] = _
    rw [hflat]
  have b2 : ((getHillData (some sevenPercentDetail)).series 0)[4]? =
      some (.number (.fin 7)) := by
    rw [getHillData_share sevenPercentDetail sevenPercentHills sevenHundredths rfl rfl]
    show some (JSValue.number (toBinary64 (sevenHundredths * 100)).round2) = _
    rw [toBinary64_seven_times_hundred]
    simp [JSNumber.round2, hbar2]
  have p2 : (hillsShareData sevenPercentHills).series 0 =
      [.number (.fin (7881299347898369 / 1125899906842624)), .number (.fin 93)] := by
    rw [hillsShareData_series sevenPercentHills sevenHundredths rfl]
    show [JSValue.number (toBinary64 (sevenHundredths * 100)),
      JSValue.number ((JSNumber.fin 100).sub (toBinary64 (sevenHundredths * 100)))] = _
    rw [toBinary64_seven_times_hundred]
    show [JSValue.number (.fin (7881299347898369 / 1125899906842624)),
      JSValue.number (toBinary64 (100 - 7881299347898369 / 1125899906842624))] = _
    rw [toBinary64_hundred_sub_seven]
  have b3 : ((getHillData (some faintDetail)).series 0)[4]? =
      some (.number (.fin (7 / 100))) := by
    rw [getHillData_share faintDetail faintHills threeQuarterThousandths rfl rfl]
    show some (JSValue.number (toBinary64 (threeQuarterThousandths * 100)).round2) = _
    rw [toBinary64_faint_times_hundred]
    simp [JSNumber.round2, hbar3]
  refine ⟨⟨b1, p1, ?_⟩, ⟨b2, p2, ?_, ?_⟩, b3, hexact⟩
  · rw [b1, p1]
    intro h
    have hq : (25 / 256 : ℚ) = 1 / 10 := by
      simpa using h
    norm_num at hq
  · rw [b2, p2]
    intro h
    have hq : (7881299347898369 / 1125899906842624 : ℚ) = 7 := by
      simpa using h
    norm_num at hq
  · rintro ⟨hills, flat, hlist, hsum⟩
    rw [p2] at hlist
    simp only [List.cons.injEq, JSValue.number.injEq, JSNumber.fin.injEq, and_true] at hlist
    obtain ⟨h1, h2⟩ := hlist
    rw [← h1, ← h2] at hsum
    norm_num at hsum

/-- C4, amended. For hill statistics with a numeric `hills_share` of `r`, the fifth bar of
`getHillData` is the binary64 product `r * 100` rounded to two decimals, and the pie has the two
values `[hills, flat]` where `hills` is that product, not rounded, and `flat` is the binary64
difference `100 - hills`; so the bar is the `hills` slice rounded to a whole number of hundredths
within half a hundredth of it, and `hills` and `flat` lie within half a binary64 spacing of the
exact `r * 100` and `100 - hills`.  For `r = 0.25` the bar is 25 and the pie is `[25, 75]`. -/
theorem hills_share_rescaling (s : SessionDetail) (hd : HillData) (r : ℚ)
    (hs : s.hill_data = some hd) (hr : hd.hills_share = .number (.fin r)) :
    ((getHillData (some s)).series 0)[4]? =
      some (.number ((JSNumber.fin r).mul (.fin 100)).round2) ∧
    (hillsShareData hd).labels = ["Hills", "Flat"] ∧
    (hillsShareData hd).series 0 =
      [.number ((JSNumber.fin r).mul (.fin 100)),
        .number ((JSNumber.fin 100).sub ((JSNumber.fin r).mul (.fin 100)))] ∧
    (∀ v : JSValue, ((hillsShareData hd).series 0)[0]? = some v →
      ((getHillData (some s)).series 0)[4]? = some (roundOrPass v)) ∧
    (∀ p : ℚ, ((hillsShareData hd).series 0)[0]? = some (.number (.fin p)) →
      |p - r * 100| ≤ 2 ^ ulpExponent (r * 100) / 2 ∧
      ((getHillData (some s)).series 0)[4]? = some (.number (.fin (round2 p))) ∧
      (∃ n : ℤ, round2 p = (n : ℚ) / 100) ∧ |round2 p - p| ≤ 1 / 200 ∧
      (∀ f : ℚ, ((hillsShareData hd).series 0)[1]? = some (.number (.fin f)) →
        |f - (100 - p)| ≤ 2 ^ ulpExponent (100 - p) / 2)) ∧
    (r = 1 / 4 →
      ((getHillData (some s)).series 0)[4]? = some (.number (.fin 25)) ∧
      (hillsShareData hd).series 0 = [.number (.fin 25), .number (.fin 75)]) := by
  have hbar := getHillData_share s hd r hs hr
  have hpie := hillsShareData_series hd r hr
  refine ⟨hbar, rfl, hpie, ?_, ?_, ?_⟩
  · intro v hv
    rw [hpie] at hv
    have hv2 : JSValue.number ((JSNumber.fin r).mul (.fin 100)) = v := by simpa using hv
    rw [hbar, ← hv2]
    rfl
  · intro p hp
    rw [hpie] at hp
    have hp2 : (JSNumber.fin r).mul (.fin 100) = .fin p := by simpa using hp
    have hp3 : toBinary64 (r * 100) = .fin p := hp2
    refine ⟨abs_sub_le_of_toBinary64_eq hp3, ?_, round2_eq_intCast_div p,
      abs_round2_sub_le p, ?_⟩
    · rw [hbar, hp2]
      rfl
    · intro f hf
      rw [hpie, hp2] at hf
      have hf2 : (JSNumber.fin 100).sub (.fin p) = .fin f := by simpa using hf
      exact abs_sub_le_of_toBinary64_eq hf2
  · intro h14
    subst h14
    have hm : (JSNumber.fin (1 / 4)).mul (.fin 100) = .fin 25 :=
      toBinary64_quarter_times_hundred
    have hsub : (JSNumber.fin 100).sub (.fin 25) = .fin 75 := toBinary64_hundred_sub_quarter
    have h25 : round2 25 = 25 := by
      have := round2_intCast_div 2500
      norm_num at this
      exact this
    constructor
    · rw [hbar, hm]
      simp [JSNumber.round2, h25]
    · rw [hpie, hm, hsub]

/-- The worked example of C4: a share of 0.25 gives the bar 25 and the pie `[25, 75]`. -/
theorem hills_share_rescaling_quarter :
    quarterDetail.hill_data = some quarterHills ∧
    quarterHills.hills_share = .number (.fin (1 / 4)) ∧
    ((getHillData (some quarterDetail)).series 0)[4]? = some (.number (.fin 25)) ∧
    (hillsShareData quarterHills).series 0 = [.number (.fin 25), .number (.fin 75)] := by
  have h := hills_share_rescaling quarterDetail quarterHills (1 / 4) rfl rfl
  exact ⟨rfl, rfl, (h.2.2.2.2.2 rfl).1, (h.2.2.2.2.2 rfl).2⟩

/-- C5. `getHillData` answers `{labels: [], datasets: []}` when no session is selected or the
selected session has no `hill_data`, and `getSpeedVsHeartRateData` answers the same when no session
is selected or one of `timestamps`, `speeds`, `heartrates` is absent.  Both are total functions:
there is no input on which they fail. -/
theorem empty_series_when_absent (h : Host) :
    getHillData none = { labels := [], datasets := [] } ∧
    (∀ s : SessionDetail, s.hill_data = none →
      getHillData (some s) = { labels := [], datasets := [] }) ∧
    getSpeedVsHeartRateData h none = { labels := [], datasets := [] } ∧
    (∀ s : SessionDetail, s.timestamps = none ∨ s.speeds = none ∨ s.heartrates = none →
      getSpeedVsHeartRateData h (some s) = { labels := [], datasets := [] }) := by
  refine ⟨rfl, ?_, rfl, ?_⟩
  · intro s hs
    simp [getHillData, hs]
  · intro s hs
    unfold getSpeedVsHeartRateData
    rcases hs with hs | hs | hs
    · simp [hs]
    · cases ht : s.timestamps <;> simp [hs]
    · cases ht : s.timestamps <;> cases hsp : s.speeds <;> simp [hs]

/-- C6. When `timestamps`, `speeds` and `heartrates` are all present, `getSpeedVsHeartRateData`
answers one label per timestamp, in order, and exactly two datasets on the distinct axes `y1`
(speed) and `y2` (heart rate); their data are `speeds` and `heartrates` in the original order with
every number rounded to two decimals and `null` and `undefined` left as they are; when the three
sequences have the same length `n`, the labels and both data series have length `n`. -/
theorem getSpeedVsHeartRateData_spec (h : Host) (s : SessionDetail)
    (timestamps : List String) (speeds heartrates : List JSValue)
    (ht : s.timestamps = some timestamps) (hs : s.speeds = some speeds)
    (hh : s.heartrates = some heartrates) :
    (getSpeedVsHeartRateData h (some s)).labels =
      timestamps.map (fun ts => h.toLocaleTimeString (h.newDate ts)) ∧
    (getSpeedVsHeartRateData h (some s)).labels.length = timestamps.length ∧
    (getSpeedVsHeartRateData h (some s)).datasets.length = 2 ∧
    (getSpeedVsHeartRateData h (some s)).axis 0 = some "y1" ∧
    (getSpeedVsHeartRateData h (some s)).axis 1 = some "y2" ∧
    (getSpeedVsHeartRateData h (some s)).axis 0 ≠ (getSpeedVsHeartRateData h (some s)).axis 1 ∧
    (getSpeedVsHeartRateData h (some s)).series 0 = speeds.map roundOrPass ∧
    (getSpeedVsHeartRateData h (some s)).series 1 = heartrates.map roundOrPass ∧
    (∀ v : JSValue, (roundOrPass v = .null ↔ v = .null) ∧
      (roundOrPass v = .undefined ↔ v = .undefined)) ∧
    (∀ q : ℚ, roundOrPass (.number (.fin q)) = .number (.fin (round2 q)) ∧
      (∃ n : ℤ, round2 q = (n : ℚ) / 100) ∧ |round2 q - q| ≤ 1 / 200) ∧
    (∀ n : ℕ, timestamps.length = n → speeds.length = n → heartrates.length = n →
      (getSpeedVsHeartRateData h (some s)).labels.length = n ∧
      ((getSpeedVsHeartRateData h (some s)).series 0).length = n ∧
      ((getSpeedVsHeartRateData h (some s)).series 1).length = n) := by
  have hl : (getSpeedVsHeartRateData h (some s)).labels =
      timestamps.map (fun ts => h.toLocaleTimeString (h.newDate ts)) := by
    simp [getSpeedVsHeartRateData, ht, hs, hh]
  have h0 : (getSpeedVsHeartRateData h (some s)).series 0 = speeds.map roundOrPass := by
    simp [getSpeedVsHeartRateData, ChartData.series, ht, hs, hh]
  have h1 : (getSpeedVsHeartRateData h (some s)).series 1 = heartrates.map roundOrPass := by
    simp [getSpeedVsHeartRateData, ChartData.series, ht, hs, hh]
  have ha0 : (getSpeedVsHeartRateData h (some s)).axis 0 = some "y1" := by
    simp [getSpeedVsHeartRateData, ChartData.axis, ht, hs, hh]
  have ha1 : (getSpeedVsHeartRateData h (some s)).axis 1 = some "y2" := by
    simp [getSpeedVsHeartRateData, ChartData.axis, ht, hs, hh]
  refine ⟨hl, by rw [hl, List.length_map], by simp [getSpeedVsHeartRateData, ht, hs, hh],
    ha0, ha1, by rw [ha0, ha1]; decide, h0, h1, ?_, ?_, ?_⟩
  · intro v
    cases v <;> simp [roundOrPass]
  · intro q
    exact ⟨rfl, round2_eq_intCast_div q, abs_round2_sub_le q⟩
  · intro n hnt hns hnh
    rw [hl, h0, h1, List.length_map, List.length_map, List.length_map]
    exact ⟨hnt, hns, hnh⟩

/-- The worked example of C6: one sample at 10:00 with speed 10.004 and heart rate 142.5 gives one
label, the speed series `[10]` on `y1` and the heart-rate series `[142.5]` on `y2`. -/
theorem getSpeedVsHeartRateData_sample :
    sampleDetail.timestamps = some ["2024-01-01T10:00:00Z"] ∧
    sampleDetail.speeds = some [.number (.fin (10004 / 1000))] ∧
    sampleDetail.heartrates = some [.number (.fin (1425 / 10))] ∧
    (getSpeedVsHeartRateData exampleHost (some sampleDetail)).labels = ["10:00:00 AM"] ∧
    (getSpeedVsHeartRateData exampleHost (some sampleDetail)).series 0 = [.number (.fin 10)] ∧
    (getSpeedVsHeartRateData exampleHost (some sampleDetail)).series 1 =
      [.number (.fin (1425 / 10))] ∧
    (getSpeedVsHeartRateData exampleHost (some sampleDetail)).axis 0 = some "y1" ∧
    (getSpeedVsHeartRateData exampleHost (some sampleDetail)).axis 1 = some "y2" := by
  obtain ⟨hl, -, -, ha0, ha1, -, h0, h1, -, -, -⟩ :=
    getSpeedVsHeartRateData_spec exampleHost sampleDetail ["2024-01-01T10:00:00Z"]
      [.number (.fin (10004 / 1000))] [.number (.fin (1425 / 10))] rfl rfl rfl
  have hsp : round2 (10004 / 1000) = 10 := by
    rw [round2_eq_of_bounds 1000 (by norm_num) (by norm_num) (by norm_num)]
    norm_num
  have hhr : round2 (1425 / 10) = 1425 / 10 := by
    rw [round2_eq_of_bounds 14250 (by norm_num) (by norm_num) (by norm_num)]
    norm_num
  refine ⟨rfl, rfl, rfl, ?_, ?_, ?_, ha0, ha1⟩
  · rw [hl]
    simp [exampleHost]
  · rw [h0]
    simp [roundOrPass, JSNumber.round2, hsp]
  · rw [h1]
    simp [roundOrPass, JSNumber.round2, hhr]

theorem sessions_run_of_no_resolution (events : List Event)
    (hno : ∀ e ∈ events, ∀ data : List SessionSummary, e ≠ .sessionsResolved data)
    (st : ViewState) : (run st events).sessions = st.sessions := by
  induction events generalizing st with
  | nil => rfl
  | cons e es ih =>
    have hes : ∀ e ∈ es, ∀ data : List SessionSummary, e ≠ .sessionsResolved data :=
      fun e he => hno e (List.mem_cons_of_mem _ he)
    have he : (step st e).sessions = st.sessions := by
      cases e with
      | sessionsResolved data => exact absurd rfl (hno _ (List.mem_cons_self _ _) data)
      | detailEffect sessionId =>
        cases sessionId with
        | none => rfl
        | some id =>
          simp only [step]
          split <;> rfl
      | sessionsEffect => rfl
      | sessionsRejected => rfl
      | detailResolved data => rfl
      | detailRejected => rfl
    show (run (step st e) es).sessions = st.sessions
    rw [ih hes (step st e), he]

theorem run_append (st : ViewState) (xs ys : List Event) :
    run st (xs ++ ys) = run (run st xs) ys := by
  simp [run, List.foldl_append]

/-- C7, as stated, fails: after the directory was loaded, a second directory fetch that fails
leaves the three loaded sessions in the view state. -/
theorem failed_refetch_keeps_sessions :
    (run ViewState.initial failedRefetch).sessions = exampleSessions ∧
    (run ViewState.initial failedRefetch).sessions ≠ [] ∧
    (run ViewState.initial failedRefetch).error = sessionsFailure ∧
    (run ViewState.initial failedRefetch).loading = false := by
  refine ⟨rfl, ?_, rfl, rfl⟩
  show exampleSessions ≠ []
  simp [exampleSessions]

/-- C7, amended. When a directory fetch is started in any view state and fails, with no directory
response arriving in between, the resulting view state holds the sessions list it held before the
fetch (the empty list when nothing was loaded, as on mount), the error is the directory-failure
message and loading is false. -/
theorem failed_directory_fetch (st : ViewState) (between : List Event)
    (hno : ∀ e ∈ between, ∀ data : List SessionSummary, e ≠ .sessionsResolved data) :
    (run st (.sessionsEffect :: between ++ [.sessionsRejected])).sessions = st.sessions ∧
    (run st (.sessionsEffect :: between ++ [.sessionsRejected])).error = sessionsFailure ∧
    (run st (.sessionsEffect :: between ++ [.sessionsRejected])).loading = false ∧
    (st.sessions = [] →
      (run st (.sessionsEffect :: between ++ [.sessionsRejected])).sessions = []) := by
  have hrun : run st (.sessionsEffect :: between ++ [.sessionsRejected]) =
      step (run (step st .sessionsEffect) between) .sessionsRejected := by
    show run (step st .sessionsEffect) (between ++ [.sessionsRejected]) = _
    rw [run_append]
    rfl
  have hs : (run st (.sessionsEffect :: between ++ [.sessionsRejected])).sessions =
      st.sessions := by
    rw [hrun]
    show (run (step st .sessionsEffect) between).sessions = st.sessions
    rw [sessions_run_of_no_resolution between hno]
    rfl
  refine ⟨hs, by rw [hrun]; rfl, by rw [hrun]; rfl, ?_⟩
  intro hempty
  rw [hs, hempty]

/-- The worked example of C7: the first directory fetch fails on mount while a detail fetch is
started, and the sessions list is empty afterwards. -/
theorem failed_directory_fetch_on_mount :
    (∀ e ∈ [Event.detailEffect (some "7")], ∀ data : List SessionSummary,
      e ≠ .sessionsResolved data) ∧
    (run ViewState.initial
      (.sessionsEffect :: [Event.detailEffect (some "7")] ++ [.sessionsRejected])).sessions = [] ∧
    (run ViewState.initial
      (.sessionsEffect :: [Event.detailEffect (some "7")] ++ [.sessionsRejected])).error =
        sessionsFailure := by
  have hno : ∀ e ∈ [Event.detailEffect (some "7")], ∀ data : List SessionSummary,
      e ≠ .sessionsResolved data := by
    intro e he data
    rw [List.mem_singleton] at he
    rw [he]
    exact fun h => Event.noConfusion h
  have h := failed_directory_fetch ViewState.initial [.detailEffect (some "7")] hno
  exact ⟨hno, h.2.2.2 rfl, h.2.1⟩

/-- C8, as stated, fails: after the directory was loaded, a failed detail fetch makes the
component return the error text alone; the output holds no calendar. -/
theorem failed_detail_hides_calendar :
    render exampleHost (run ViewState.initial failedDetail) = .ok (.error detailFailure) ∧
    ¬ ∃ v : View, render exampleHost (run ViewState.initial failedDetail) = .ok v ∧
      v.hasCalendar = true := by
  have hr : render exampleHost (run ViewState.initial failedDetail) =
      .ok (.error detailFailure) := by
    rfl
  refine ⟨hr, ?_⟩
  rintro ⟨v, hv, hcal⟩
  rw [hr] at hv
  injection hv with hv
  rw [← hv] at hcal
  exact absurd hcal (by decide)

/-- C8, amended. In every view state reached by a failed detail fetch (error set to the
detail-failure message, loading false) the component returns the error text and nothing else:
neither the calendar nor the detail panel is rendered. -/
theorem failed_detail_renders_error_only (h : Host) (st : ViewState)
    (hl : st.loading = false) (he : st.error = detailFailure) :
    render h st = .ok (.error detailFailure) ∧
    (∀ v : View, render h st = .ok v → v.hasCalendar = false ∧ v.text = some detailFailure) := by
  have hr : render h st = .ok (.error detailFailure) := by
    unfold render
    rw [hl, he]
    rfl
  refine ⟨hr, ?_⟩
  intro v hv
  rw [hr] at hv
  injection hv with hv
  rw [← hv]
  exact ⟨rfl, rfl⟩

/-- The worked example of C8: the state after `failedDetail`. -/
theorem failed_detail_renders_error_only_example :
    (run ViewState.initial failedDetail).loading = false ∧
    (run ViewState.initial failedDetail).error = detailFailure ∧
    (run ViewState.initial failedDetail).sessions = exampleSessions ∧
    render exampleHost (run ViewState.initial failedDetail) = .ok (.error detailFailure) :=
  ⟨rfl, rfl, rfl,
    (failed_detail_renders_error_only exampleHost (run ViewState.initial failedDetail) rfl rfl).1⟩

/-- Rendering a selected session without `hill_data` throws, whatever else the state holds. -/
theorem render_throws_without_hill_data (h : Host) (st : ViewState) (s : SessionDetail)
    (hl : st.loading = false) (he : st.error = "") (hsel : st.selectedSession = some s)
    (hh : s.hill_data = none) : render h st = .error (.typeError "hills_share") := by
  unfold render
  rw [hl, he, hsel]
  simp [detailPanel, hh]

/-- C9. The code throws where the claim promises a render: once a session without `hill_data`
is loaded, `getHillData` answers the empty series, and the component then throws a `TypeError`
on reading `hill_data.hills_share` for the pie. -/
theorem render_without_hill_data_throws :
    (run ViewState.initial loadedWithoutHills).selectedSession = some sampleDetail ∧
    sampleDetail.hill_data = none ∧
    getHillData (some sampleDetail) = { labels := [], datasets := [] } ∧
    render exampleHost (run ViewState.initial loadedWithoutHills) =
      .error (.typeError "hills_share") :=
  ⟨rfl, rfl, rfl,
    render_throws_without_hill_data exampleHost _ sampleDetail rfl rfl rfl rfl⟩

/-- C10. The code shows the placeholder for a field that is present: at 0 degrees and 0 kph the
temperature and the wind speed are both shown as `N/A`, next to a humidity of `50.00%`, while
the chart formatter keeps a zero as the number 0. -/
theorem weather_zero_shown_as_placeholder :
    (weatherPanel exampleHost freezingCalm).temperature = "N/A" ∧
    (weatherPanel exampleHost freezingCalm).windSpeed = "N/A" ∧
    (weatherPanel exampleHost freezingCalm).condition = "Clear" ∧
    (weatherPanel exampleHost freezingCalm).humidity = "50.00%" ∧
    roundOrPass (.number (.fin 0)) = .number (.fin 0) := by
  refine ⟨?_, ?_, ?_, ?_, ?_⟩
  · simp [weatherPanel, weatherNumber, freezingCalm, JSValue.truthy]
  · simp [weatherPanel, weatherNumber, freezingCalm, JSValue.truthy]
  · simp [weatherPanel, weatherCondition, freezingCalm]
  · have hn : hundredths |(50 : ℚ)| = 5000 :=
      hundredths_eq_of_bounds 5000 (by norm_num) (by norm_num)
    have hbig : ¬ ((10 : ℚ) ^ 21 ≤ |(50 : ℚ)|) := by norm_num
    have hneg : ¬ ((50 : ℚ) < 0) := by norm_num
    simp only [weatherPanel, weatherNumber, freezingCalm, JSValue.truthy, parseFloat, toFixed2,
      hn, if_neg hbig, if_neg hneg]
    decide
  · have h0 : round2 0 = 0 := by
      have := round2_intCast_div 0
      simpa using this
    simp [roundOrPass, JSNumber.round2, h0]

end HistoryCalendar
